import Mathlib

/-
Verification of the event-source reconciliation layer of zappa
(src/zappa/utilities.py, lines 244-487): descriptor parsing and adapter
dispatch (`get_event_source`), the SQS adapter (`SqsEventSource`), and the
three public entry points (`add_event_source`, `remove_event_source`,
`get_event_source_status`).

The provider (the AWS event-source-mapping API reached through the boto
session) is an external collaborator; it is modelled here as an explicit
state of mappings with the minimal call interface the code uses
(list / create / update / delete / get).  Provider faults are injected
through a `fault` predicate on calls, so that the try/except structure of
the Python code can be stated and checked.  Every provider call the code
issues is recorded in a trace, so frame claims ("issues no mutating call",
"add is never invoked twice") are statements about traces.
-/

set_option autoImplicit false

deriving instance DecidableEq for Except

namespace Zappa

/-- Python's `s.split(sep, maxsplit)` on a list of characters: split on
`sep` at most `n` times.  `arn.split(":", 3)` in `get_event_source`
(utilities.py line 405) is `splitLimit ':' 3 arn.toList`. -/
def splitLimit (sep : Char) : Nat → List Char → List (List Char)
  | _, [] => [[]]
  | 0, cs => [cs]
  | n + 1, c :: cs =>
    if c = sep then [] :: splitLimit sep n cs
    else
      match splitLimit sep (n + 1) cs with
      | [] => [[c]]
      | p :: ps => (c :: p) :: ps

/-- Python's unlimited `s.split(sep)` on a list of characters, used for
`lambda_arn.split(":")` in the S3 branch (utilities.py line 431). -/
def splitAll (sep : Char) : List Char → List (List Char)
  | [] => [[]]
  | c :: cs =>
    if c = sep then [] :: splitAll sep cs
    else
      match splitAll sep cs with
      | [] => [[c]]
      | p :: ps => (c :: p) :: ps

/-- Python's `":".join(parts)` (utilities.py lines 432 and 436). -/
def joinColon (parts : List (List Char)) : String :=
  String.mk (List.intercalate [':'] parts)

/-- The event-source descriptor (the `event_source` dictionary).  It doubles
as the adapter's `self._config`: `SqsEventSource` is constructed with the
descriptor itself as its config (utilities.py line 442).  `arn` is always
present; the other keys are optional (`dict.get`). -/
structure EventSourceConfig where
  arn : String
  batch_size : Option Nat := none
  batch_window : Option Nat := none
  enabled : Option Bool := none
  deriving Repr, DecidableEq

/-- One provider-side event-source mapping (external resource). -/
structure Mapping where
  uuid : Nat
  functionName : String
  eventSourceArn : String
  batchSize : Nat
  batchWindow : Nat
  enabled : Bool
  deriving Repr, DecidableEq

/-- The provider's state: the set of existing mappings plus a fresh-UUID
counter used when a create call assigns a new UUID. -/
structure ProviderState where
  mappings : List Mapping
  nextUuid : Nat
  deriving Repr, DecidableEq

/-- Errors surfacing from provider calls: `client` is a
`botocore.exceptions.ClientError` (e.g. resource not found, parameter
validation), `generic` is any other raised exception (e.g. an injected
transient fault). -/
inductive PErr
  | generic
  | client
  deriving Repr, DecidableEq

/-- The provider calls the reconciliation layer issues, as recorded in
traces.  `updateByUuid` carries the (possibly absent) UUID the code passed;
`updateByFunctionName` is an update call keyed by a function name or ARN
instead of a UUID, exactly as `disable` and `update` issue it. -/
inductive ProviderCall
  | listEventSourceMappings (functionName eventSourceArn : String)
  | createEventSourceMapping (functionName eventSourceArn : String)
      (batchSize batchWindow : Nat) (enabled : Bool)
  | updateByUuid (uuid : Option Nat) (enabled : Bool)
  | updateByFunctionName (functionName : String)
      (batchSize batchWindow : Option Nat) (enabled : Bool)
  | deleteEventSourceMapping (uuid : Nat)
  | getEventSourceMapping (uuid : Nat)
  deriving Repr, DecidableEq

/-- Calls that mutate provider state (create / update / delete). -/
def ProviderCall.isMutating : ProviderCall → Bool
  | .listEventSourceMappings _ _ => false
  | .getEventSourceMapping _ => false
  | _ => true

/-- Create calls, for counting how often `add` reached the provider. -/
def ProviderCall.isCreate : ProviderCall → Bool
  | .createEventSourceMapping _ _ _ _ _ => true
  | _ => false

/-- Delete calls, for checking that a removal issued no delete. -/
def ProviderCall.isDelete : ProviderCall → Bool
  | .deleteEventSourceMapping _ => true
  | _ => false

/-- `list_event_source_mappings(FunctionName=fn, EventSourceArn=arn)`:
the provider returns the mappings filtered by function name and source
ARN. -/
def ProviderState.listFor (s : ProviderState) (fn arn : String) : List Mapping :=
  s.mappings.filter fun m => m.functionName == fn && m.eventSourceArn == arn

/-- `create_event_source_mapping`: appends a fresh mapping. -/
def ProviderState.create (s : ProviderState) (fn arn : String)
    (bs bw : Nat) (en : Bool) : ProviderState where
  mappings := s.mappings ++ [⟨s.nextUuid, fn, arn, bs, bw, en⟩]
  nextUuid := s.nextUuid + 1

/-- `update_event_source_mapping(UUID=u, Enabled=en)`: updates the mapping
with that UUID, or raises a client error when the UUID is absent or no
such mapping exists. -/
def ProviderState.updateEnabled (s : ProviderState) (u : Option Nat)
    (en : Bool) : Except PErr ProviderState :=
  match u with
  | none => .error .client
  | some uu =>
    if s.mappings.any (fun m => m.uuid == uu) then
      .ok { s with mappings :=
        s.mappings.map fun m => if m.uuid == uu then { m with enabled := en } else m }
    else .error .client

/-- `delete_event_source_mapping(UUID=u)`: removes the mapping with that
UUID and returns its description (the raw deletion response), or raises a
client error when no such mapping exists. -/
def ProviderState.deleteMapping (s : ProviderState) (u : Nat) :
    Except PErr (Mapping × ProviderState) :=
  match s.mappings.find? (fun m => m.uuid == u) with
  | some m => .ok (m, { s with mappings := s.mappings.filter fun m' => !(m'.uuid == u) })
  | none => .error .client

/-- `get_event_source_mapping(UUID=u)`: returns the mapping description, or
raises a client error ("resource not found") when absent. -/
def ProviderState.getMapping (s : ProviderState) (u : Nat) : Except PErr Mapping :=
  match s.mappings.find? (fun m => m.uuid == u) with
  | some m => .ok m
  | none => .error .client

/-- A healthy provider state: mapping UUIDs are distinct and below the
fresh-UUID counter. -/
def ProviderState.WF (s : ProviderState) : Prop :=
  (s.mappings.map Mapping.uuid).Nodup ∧ ∀ m ∈ s.mappings, m.uuid < s.nextUuid

instance (s : ProviderState) : Decidable s.WF := by
  unfold ProviderState.WF
  infer_instance

/-- Issue one provider call: an injected fault raises a generic exception,
otherwise the call's own semantics `sem` applies. -/
def callProv {α : Type} (fault : ProviderCall → Bool) (c : ProviderCall)
    (sem : Except PErr α) : Except PErr α :=
  if fault c then .error .generic else sem

/-- A fault-free provider run. -/
def noFault : ProviderCall → Bool := fun _ => false

/-- A provider run in which every mutating call raises. -/
def faultMutations : ProviderCall → Bool := fun c => c.isMutating

namespace SqsEventSource

/-- `self.batch_size` (kappa base `EventSource` property, the third-party
base class of `SqsEventSource`): `self._config.get("batch_size", 100)`. -/
def batch_size (cfg : EventSourceConfig) : Nat :=
  cfg.batch_size.getD 100

/-- `self.enabled` (kappa base `EventSource` property):
`self._config.get("enabled", False)`. -/
def enabledProp (cfg : EventSourceConfig) : Bool :=
  cfg.enabled.getD false

/-- `SqsEventSource.batch_window` (utilities.py lines 278-280):
`self._config.get("batch_window", 1 if self.batch_size > 10 else 0)`. -/
def batch_window (cfg : EventSourceConfig) : Nat :=
  cfg.batch_window.getD (if batch_size cfg > 10 then 1 else 0)

/-- The deployed-function reference the adapters receive (the
`PseudoFunction` built by `get_event_source`): a `name` and an `arn`. -/
structure FunctionRef where
  name : String
  arn : String
  deriving Repr, DecidableEq

/-- The list call `_get_uuid` issues (utilities.py lines 284-288). -/
def listCall (cfg : EventSourceConfig) (fn : FunctionRef) : ProviderCall :=
  .listEventSourceMappings fn.name cfg.arn

/-- The create call `add` issues (utilities.py lines 296-303). -/
def createCall (cfg : EventSourceConfig) (fn : FunctionRef) : ProviderCall :=
  .createEventSourceMapping fn.name cfg.arn (batch_size cfg) (batch_window cfg)
    (enabledProp cfg)

/-- `SqsEventSource._get_uuid` (utilities.py lines 282-292): list the
mappings for (function name, source ARN) and return the first UUID, if
any.  A fault in the list call raises out of `_get_uuid` itself. -/
def getUuid (fault : ProviderCall → Bool) (cfg : EventSourceConfig)
    (fn : FunctionRef) (s : ProviderState) : Except PErr (Option Nat) :=
  callProv fault (listCall cfg fn)
    (.ok ((s.listFor fn.name cfg.arn).head?.map Mapping.uuid))

/-- `SqsEventSource.add` (utilities.py lines 294-306): one create call,
wrapped in try/except, so `add` always returns normally; on a provider
error the state is left as it was. -/
def add (fault : ProviderCall → Bool) (cfg : EventSourceConfig)
    (fn : FunctionRef) (s : ProviderState) : ProviderState × List ProviderCall :=
  let c := createCall cfg fn
  match callProv fault c
      (.ok (s.create fn.name cfg.arn (batch_size cfg) (batch_window cfg)
        (enabledProp cfg))) with
  | .ok s' => (s', [c])
  | .error _ => (s, [c])

/-- `SqsEventSource.enable` (utilities.py lines 308-318): set the local
`enabled` flag, then inside try/except resolve the UUID (a list call) and
issue `update_event_source_mapping(UUID=..., Enabled=True)`.  Every
provider error is swallowed. -/
def enable (fault : ProviderCall → Bool) (cfg : EventSourceConfig)
    (fn : FunctionRef) (s : ProviderState) :
    EventSourceConfig × ProviderState × List ProviderCall :=
  let cfg' := { cfg with enabled := some true }
  let lc := listCall cfg' fn
  match callProv fault lc
      (.ok ((s.listFor fn.name cfg'.arn).head?.map Mapping.uuid)) with
  | .error _ => (cfg', s, [lc])
  | .ok u =>
    let uc := ProviderCall.updateByUuid u true
    match callProv fault uc (s.updateEnabled u true) with
    | .ok s' => (cfg', s', [lc, uc])
    | .error _ => (cfg', s, [lc, uc])

/-- `SqsEventSource.disable` (utilities.py lines 320-330): set the local
`enabled` flag to false, then issue
`update_event_source_mapping(FunctionName=function.name, Enabled=False)` -
keyed by the function name, with no UUID resolution at all.  The provider
rejects an update carrying no UUID; the error is swallowed. -/
def disable (fault : ProviderCall → Bool) (cfg : EventSourceConfig)
    (fn : FunctionRef) (s : ProviderState) :
    EventSourceConfig × ProviderState × List ProviderCall :=
  let cfg' := { cfg with enabled := some false }
  let uc := ProviderCall.updateByFunctionName fn.name none none false
  match callProv fault uc (.error .client : Except PErr ProviderState) with
  | .ok s' => (cfg', s', [uc])
  | .error _ => (cfg', s, [uc])

/-- `SqsEventSource.update` (utilities.py lines 332-346): resolve the UUID
(outside any try/except, so a fault in the list call propagates); if a
mapping exists, issue `update_event_source_mapping(BatchSize=...,
MaximumBatchingWindowInSeconds=..., Enabled=..., FunctionName=function.arn)`
- keyed by the function ARN, not by the UUID just resolved - inside
try/except.  No-op when no mapping exists. -/
def update (fault : ProviderCall → Bool) (cfg : EventSourceConfig)
    (fn : FunctionRef) (s : ProviderState) :
    Except PErr (ProviderState × List ProviderCall) :=
  let lc := listCall cfg fn
  match callProv fault lc
      (.ok ((s.listFor fn.name cfg.arn).head?.map Mapping.uuid)) with
  | .error e => .error e
  | .ok none => .ok (s, [lc])
  | .ok (some _) =>
    let uc := ProviderCall.updateByFunctionName fn.arn (some (batch_size cfg))
      (some (batch_window cfg)) (enabledProp cfg)
    match callProv fault uc (.error .client : Except PErr ProviderState) with
    | .ok s' => .ok (s', [lc, uc])
    | .error _ => .ok (s, [lc, uc])

/-- `SqsEventSource.remove` (utilities.py lines 348-354): resolve the UUID;
if a mapping exists, delete it by UUID and return the provider's deletion
response; otherwise return none.  Nothing is caught here: a provider error
in either call propagates to the caller. -/
def remove (fault : ProviderCall → Bool) (cfg : EventSourceConfig)
    (fn : FunctionRef) (s : ProviderState) :
    Except PErr (Option Mapping × ProviderState × List ProviderCall) :=
  let lc := listCall cfg fn
  match callProv fault lc
      (.ok ((s.listFor fn.name cfg.arn).head?.map Mapping.uuid)) with
  | .error e => .error e
  | .ok none => .ok (none, s, [lc])
  | .ok (some u) =>
    let dc := ProviderCall.deleteEventSourceMapping u
    match callProv fault dc (s.deleteMapping u) with
    | .error e => .error e
    | .ok (m, s') => .ok (some m, s', [lc, dc])

/-- `SqsEventSource.status` (utilities.py lines 356-369): resolve the UUID
(outside the try block); when a mapping exists, the code resolves the UUID
a second time inside the try block (the call and hence its outcome are
identical, the provider state being unchanged) and issues
`get_event_source_mapping`.  A `ClientError` from the get call is caught
and turned into none; any other exception propagates.  When no mapping
exists, return none without a get call. -/
def status (fault : ProviderCall → Bool) (cfg : EventSourceConfig)
    (fn : FunctionRef) (s : ProviderState) :
    Except PErr (Option Mapping × List ProviderCall) :=
  let lc := listCall cfg fn
  match callProv fault lc
      (.ok ((s.listFor fn.name cfg.arn).head?.map Mapping.uuid)) with
  | .error e => .error e
  | .ok none => .ok (none, [lc])
  | .ok (some u) =>
    let gc := ProviderCall.getEventSourceMapping u
    match callProv fault gc (s.getMapping u) with
    | .error .client => .ok (none, [lc, lc, gc])
    | .error .generic => .error .generic
    | .ok m => .ok (some m, [lc, lc, gc])

end SqsEventSource

/-- The adapter variants registered in `event_source_map`
(utilities.py lines 395-402). -/
inductive ServiceKind
  | dynamodb
  | kinesis
  | s3
  | sns
  | sqs
  | events
  deriving Repr, DecidableEq

/-- The `ValueError`s `get_event_source` can raise: tuple unpacking of
`arn.split(":", 3)` into four variables fails, or the service identifier
has no registered adapter (`ValueError("Unknown event source: {arn}")`,
which names the offending ARN). -/
inductive ResolveError
  | unpackError
  | unknownEventSource (arn : String)
  deriving Repr, DecidableEq

/-- `_, _, svc, _ = arn.split(":", 3)` (utilities.py line 405): the limited
split must yield exactly four segments, and the third is the service
identifier. -/
def parseService (arn : String) : Except ResolveError String :=
  match splitLimit ':' 3 arn.toList with
  | [_, _, svc, _] => .ok (String.mk svc)
  | _ => .error .unpackError

/-- `event_source_map.get(svc, None)` (utilities.py lines 395-407). -/
def event_source_map (svc : String) : Option ServiceKind :=
  if svc = "dynamodb" then some .dynamodb
  else if svc = "kinesis" then some .kinesis
  else if svc = "s3" then some .s3
  else if svc = "sns" then some .sns
  else if svc = "sqs" then some .sqs
  else if svc = "events" then some .events
  else none

/-- The `PseudoContext` built by `get_event_source`: it carries the boto
session (opaque, not modelled) and, in the S3 branch only, an
`environment` field. -/
structure PseudoContext where
  environment : Option String := none
  deriving Repr, DecidableEq

/-- `get_event_source` (utilities.py lines 244-444), the resolution part:
parse the service identifier out of the descriptor's ARN, look up the
adapter variant, and build the function reference.  In the S3 branch the
supplied `lambda_arn` is split on ":": the target's `arn` becomes
all-but-the-last segment rejoined, the context's `environment` the last
segment, and the target's `name` the last segment colon-joined with
`target_function`.  Every other service uses `lambda_arn` unmodified as
both `name` and `arn`.  The `dry` parameter is accepted and never used. -/
def get_event_source (event_source : EventSourceConfig)
    (lambda_arn target_function : String) (dry : Bool) :
    Except ResolveError (ServiceKind × PseudoContext × SqsEventSource.FunctionRef) :=
  match parseService event_source.arn with
  | .error e => .error e
  | .ok svc =>
    match event_source_map svc with
    | none => .error (.unknownEventSource event_source.arn)
    | some kind =>
      if svc = "s3" then
        let split_arn := splitAll ':' lambda_arn.toList
        let arn_front := joinColon split_arn.dropLast
        let arn_back := split_arn.getLastD []
        .ok (kind, { environment := some (String.mk arn_back) },
          { name := joinColon [arn_back, target_function.toList], arn := arn_front })
      else
        .ok (kind, { environment := none }, { name := lambda_arn, arn := lambda_arn })

/-- The capability set the entry points use on a resolved adapter object:
`status`, `add` and `remove`, each acting on the provider state and
returning the calls it issued.  The SQS adapter of this file implements
it; the adapters of the other five services live in the third-party kappa
library and stay abstract. -/
structure AdapterOps where
  status : SqsEventSource.FunctionRef → ProviderState →
    Except PErr (Option Mapping × ProviderState × List ProviderCall)
  add : SqsEventSource.FunctionRef → ProviderState →
    Except PErr (ProviderState × List ProviderCall)
  remove : SqsEventSource.FunctionRef → ProviderState →
    Except PErr (Option Mapping × ProviderState × List ProviderCall)

/-- The `SqsEventSource` instance built by `get_event_source` for an SQS
descriptor: the descriptor itself is the config.  `status` leaves the
provider state unchanged (it only lists and gets), `add` never raises. -/
def sqsOps (fault : ProviderCall → Bool) (cfg : EventSourceConfig) : AdapterOps where
  status := fun fn s =>
    (SqsEventSource.status fault cfg fn s).map fun rt => (rt.1, s, rt.2)
  add := fun fn s => .ok (SqsEventSource.add fault cfg fn s)
  remove := fun fn s => SqsEventSource.remove fault cfg fn s

/-- Adapter selection: the SQS slot is the adapter defined in this file;
the other five slots come from the kappa library and are a parameter. -/
def adapterFor (fault : ProviderCall → Bool)
    (other : ServiceKind → EventSourceConfig → AdapterOps)
    (kind : ServiceKind) (cfg : EventSourceConfig) : AdapterOps :=
  match kind with
  | .sqs => sqsOps fault cfg
  | k => other k cfg

/-- A trivial stand-in for the five kappa-provided adapters, used to
instantiate the `other` parameter on concrete runs; the claims proved
about non-SQS dispatch never consult it. -/
def kappaStub : ServiceKind → EventSourceConfig → AdapterOps := fun _ _ =>
  { status := fun _ s => .ok (none, s, [])
    add := fun _ s => .ok (s, [])
    remove := fun _ s => .ok (none, s, []) }

/-- Errors a public entry point can raise: a resolution `ValueError` from
`get_event_source`, or an uncaught provider error. -/
inductive ZapError
  | resolve (e : ResolveError)
  | provider (e : PErr)
  deriving Repr, DecidableEq

/-- `add_event_source` (utilities.py lines 447-461): resolve with
`dry=False` (the literal in the source), then, unless `dry` is set, query
status; if absent invoke `add` and re-query, answering "successful" when
the mapping is now present and "failed" otherwise; if present answer
"exists".  With `dry` set, answer "dryrun" having issued no provider
call. -/
def add_event_source (fault : ProviderCall → Bool)
    (other : ServiceKind → EventSourceConfig → AdapterOps)
    (event_source : EventSourceConfig) (lambda_arn target_function : String)
    (s : ProviderState) (dry : Bool) :
    Except ZapError (String × ProviderState × List ProviderCall) :=
  match get_event_source event_source lambda_arn target_function false with
  | .error e => .error (.resolve e)
  | .ok (kind, _ctx, funk) =>
    let A := adapterFor fault other kind event_source
    if !dry then
      match A.status funk s with
      | .error e => .error (.provider e)
      | .ok (none, s1, t1) =>
        match A.add funk s1 with
        | .error e => .error (.provider e)
        | .ok (s2, t2) =>
          match A.status funk s2 with
          | .error e => .error (.provider e)
          | .ok (r, s3, t3) =>
            .ok (if r.isSome then "successful" else "failed", s3, t1 ++ t2 ++ t3)
      | .ok (some _, s1, t1) => .ok ("exists", s1, t1)
    else
      .ok ("dryrun", s, [])

/-- What `remove_event_source` returns: the provider's raw deletion
response (or none) when `dry` is unset, and the adapter object itself
(identified by its variant and config) when `dry` is set. -/
inductive RemoveResult
  | response (r : Option Mapping) (s : ProviderState) (t : List ProviderCall)
  | adapterObject (kind : ServiceKind) (cfg : EventSourceConfig)
  deriving Repr, DecidableEq

/-- `remove_event_source` (utilities.py lines 464-477): resolve with
`dry=False`, re-point the target's `arn` back to `lambda_arn` (undoing the
S3 special-casing), then either invoke `remove` and return its raw result,
or (dry) return the adapter object without any provider call. -/
def remove_event_source (fault : ProviderCall → Bool)
    (other : ServiceKind → EventSourceConfig → AdapterOps)
    (event_source : EventSourceConfig) (lambda_arn target_function : String)
    (s : ProviderState) (dry : Bool) : Except ZapError RemoveResult :=
  match get_event_source event_source lambda_arn target_function false with
  | .error e => .error (.resolve e)
  | .ok (kind, _ctx, funk) =>
    let funk' := { funk with arn := lambda_arn }
    let A := adapterFor fault other kind event_source
    if !dry then
      match A.remove funk' s with
      | .error e => .error (.provider e)
      | .ok (r, s', t) => .ok (.response r s' t)
    else
      .ok (.adapterObject kind event_source)

/-- `get_event_source_status` (utilities.py lines 480-487): resolve with
`dry=False` and return the adapter's `status` result directly; the `dry`
flag it received is otherwise ignored. -/
def get_event_source_status (fault : ProviderCall → Bool)
    (other : ServiceKind → EventSourceConfig → AdapterOps)
    (event_source : EventSourceConfig) (lambda_arn target_function : String)
    (s : ProviderState) (dry : Bool) :
    Except ZapError (Option Mapping × ProviderState × List ProviderCall) :=
  match get_event_source event_source lambda_arn target_function false with
  | .error e => .error (.resolve e)
  | .ok (kind, _ctx, funk) =>
    match (adapterFor fault other kind event_source).status funk s with
    | .error e => .error (.provider e)
    | .ok r => .ok r

/-! ### Helper lemmas -/

theorem splitLimit_ne_nil (sep : Char) :
    ∀ (cs : List Char) (n : Nat), splitLimit sep n cs ≠ [] := by
  intro cs
  induction cs with
  | nil => intro n; cases n <;> simp [splitLimit]
  | cons c cs ih =>
    intro n
    cases n with
    | zero => simp [splitLimit]
    | succ n =>
      by_cases hc : c = sep
      · simp [splitLimit, hc]
      · simp only [splitLimit, hc, if_false]
        rcases h : splitLimit sep (n + 1) cs with _ | ⟨p, ps⟩ <;> simp

theorem splitLimit_length (sep : Char) :
    ∀ (cs : List Char) (n : Nat),
      (splitLimit sep n cs).length = min (cs.count sep) n + 1 := by
  intro cs
  induction cs with
  | nil => intro n; cases n <;> simp [splitLimit]
  | cons c cs ih =>
    intro n
    cases n with
    | zero => simp [splitLimit]
    | succ n =>
      by_cases hc : c = sep
      · subst hc
        simp [splitLimit, ih, List.count_cons_self, Nat.succ_min_succ]
      · have hne := splitLimit_ne_nil sep cs (n + 1)
        have hl := ih (n + 1)
        rcases h : splitLimit sep (n + 1) cs with _ | ⟨p, ps⟩
        · exact absurd h hne
        · rw [h] at hl
          simp only [splitLimit, hc, if_false, h, List.length_cons] at hl ⊢
          rw [List.count_cons_of_ne (by simpa using Ne.symm hc)]
          omega

theorem parseService_unpack_iff (arn : String) :
    parseService arn = .error .unpackError ↔
      (splitLimit ':' 3 arn.toList).length ≠ 4 := by
  unfold parseService
  generalize splitLimit ':' 3 arn.toList = l
  rcases l with _ | ⟨a, _ | ⟨b, _ | ⟨c, _ | ⟨e, _ | ⟨f, rest⟩⟩⟩⟩⟩ <;> simp

theorem resolve_sqs (es : EventSourceConfig) (la tf : String) (d : Bool)
    (hsvc : parseService es.arn = .ok "sqs") :
    get_event_source es la tf d =
      .ok (.sqs, { environment := none }, { name := la, arn := la }) := by
  unfold get_event_source
  rw [hsvc]
  simp [event_source_map]

theorem listFor_create (s : ProviderState) (fn arn : String) (bs bw : Nat) (en : Bool) :
    (s.create fn arn bs bw en).listFor fn arn =
      s.listFor fn arn ++ [⟨s.nextUuid, fn, arn, bs, bw, en⟩] := by
  simp [ProviderState.create, ProviderState.listFor, List.filter_append]

theorem find?_uuid_append (l₁ l₂ : List Mapping) (u : Nat)
    (h : ∀ m ∈ l₁, m.uuid ≠ u) :
    (l₁ ++ l₂).find? (fun m => m.uuid == u) = l₂.find? (fun m => m.uuid == u) := by
  rw [List.find?_append]
  have hnone : l₁.find? (fun m => m.uuid == u) = none := by
    rw [List.find?_eq_none]
    intro m hm
    simpa using h m hm
  rw [hnone]
  rfl

theorem find?_uuid_of_nodup (l : List Mapping) (m : Mapping)
    (hnd : (l.map Mapping.uuid).Nodup) (hm : m ∈ l) :
    l.find? (fun m' => m'.uuid == m.uuid) = some m := by
  induction l with
  | nil => cases hm
  | cons a l ih =>
    rw [List.map_cons, List.nodup_cons] at hnd
    rcases List.mem_cons.mp hm with rfl | hm'
    · simp
    · have hne : a.uuid ≠ m.uuid := by
        intro he
        exact hnd.1 (he ▸ List.mem_map_of_mem Mapping.uuid hm')
      rw [List.find?_cons_of_neg _ (by simpa using hne)]
      exact ih hnd.2 hm'

theorem status_absent (fault : ProviderCall → Bool) (cfg : EventSourceConfig)
    (fn : SqsEventSource.FunctionRef) (s : ProviderState)
    (hf : fault (SqsEventSource.listCall cfg fn) = false)
    (hm : s.listFor fn.name cfg.arn = []) :
    SqsEventSource.status fault cfg fn s =
      .ok (none, [SqsEventSource.listCall cfg fn]) := by
  simp [SqsEventSource.status, callProv, hf, hm]

theorem status_present (cfg : EventSourceConfig) (fn : SqsEventSource.FunctionRef)
    (s : ProviderState) (m : Mapping) (rest : List Mapping)
    (hm : s.listFor fn.name cfg.arn = m :: rest) (m' : Mapping)
    (hfind : s.mappings.find? (fun x => x.uuid == m.uuid) = some m') :
    SqsEventSource.status noFault cfg fn s =
      .ok (some m', [SqsEventSource.listCall cfg fn, SqsEventSource.listCall cfg fn,
        .getEventSourceMapping m.uuid]) := by
  simp [SqsEventSource.status, callProv, noFault, hm, ProviderState.getMapping, hfind]

theorem add_noFault (cfg : EventSourceConfig) (fn : SqsEventSource.FunctionRef)
    (s : ProviderState) :
    SqsEventSource.add noFault cfg fn s =
      (s.create fn.name cfg.arn (SqsEventSource.batch_size cfg)
        (SqsEventSource.batch_window cfg) (SqsEventSource.enabledProp cfg),
       [SqsEventSource.createCall cfg fn]) := by
  simp [SqsEventSource.add, callProv, noFault]

theorem add_faulted (fault : ProviderCall → Bool) (cfg : EventSourceConfig)
    (fn : SqsEventSource.FunctionRef) (s : ProviderState)
    (hf : fault (SqsEventSource.createCall cfg fn) = true) :
    SqsEventSource.add fault cfg fn s = (s, [SqsEventSource.createCall cfg fn]) := by
  simp [SqsEventSource.add, callProv, hf]

theorem status_after_create (cfg : EventSourceConfig)
    (fn : SqsEventSource.FunctionRef) (s : ProviderState)
    (hab : s.listFor fn.name cfg.arn = [])
    (hfresh : ∀ m ∈ s.mappings, m.uuid < s.nextUuid) (bs bw : Nat) (en : Bool) :
    SqsEventSource.status noFault cfg fn (s.create fn.name cfg.arn bs bw en) =
      .ok (some ⟨s.nextUuid, fn.name, cfg.arn, bs, bw, en⟩,
        [SqsEventSource.listCall cfg fn, SqsEventSource.listCall cfg fn,
         .getEventSourceMapping s.nextUuid]) := by
  have hl : (s.create fn.name cfg.arn bs bw en).listFor fn.name cfg.arn =
      [⟨s.nextUuid, fn.name, cfg.arn, bs, bw, en⟩] := by
    rw [listFor_create, hab]
    rfl
  have hfind : (s.create fn.name cfg.arn bs bw en).mappings.find?
      (fun x => x.uuid == s.nextUuid) =
      some ⟨s.nextUuid, fn.name, cfg.arn, bs, bw, en⟩ := by
    show (s.mappings ++ [_]).find? _ = _
    rw [find?_uuid_append]
    · simp
    · intro m hm
      exact Nat.ne_of_lt (hfresh m hm)
  exact status_present cfg fn _ _ [] hl _ hfind

theorem remove_noFault_absent (cfg : EventSourceConfig)
    (fn : SqsEventSource.FunctionRef) (s : ProviderState)
    (hm : s.listFor fn.name cfg.arn = []) :
    SqsEventSource.remove noFault cfg fn s =
      .ok (none, s, [SqsEventSource.listCall cfg fn]) := by
  simp [SqsEventSource.remove, callProv, noFault, hm]

theorem remove_noFault_present (cfg : EventSourceConfig)
    (fn : SqsEventSource.FunctionRef) (s : ProviderState) (m : Mapping)
    (rest : List Mapping) (hnd : (s.mappings.map Mapping.uuid).Nodup)
    (hm : s.listFor fn.name cfg.arn = m :: rest) :
    SqsEventSource.remove noFault cfg fn s =
      .ok (some m, { s with mappings := s.mappings.filter fun m' => !(m'.uuid == m.uuid) },
        [SqsEventSource.listCall cfg fn, .deleteEventSourceMapping m.uuid]) := by
  have hmem : m ∈ s.mappings := by
    have hmem' : m ∈ s.listFor fn.name cfg.arn := by
      rw [hm]
      exact List.mem_cons_self m rest
    exact (List.mem_filter.mp hmem').1
  have hfind := find?_uuid_of_nodup s.mappings m hnd hmem
  simp [SqsEventSource.remove, callProv, noFault, hm, ProviderState.deleteMapping, hfind]

/-! ### Claims -/

/-- Claim C5: the computed SQS batch window equals the configured
`batch_window` whenever that key is present in the config (in particular
an explicit `batch_window = 3` yields 3 regardless of batch size); when
the key is absent it equals 1 when the configured batch size exceeds 10
(e.g. 15) and 0 otherwise (e.g. 5). -/
theorem c5_sqs_batch_window (cfg : EventSourceConfig) (w b : Nat) :
    (cfg.batch_window = some w → SqsEventSource.batch_window cfg = w) ∧
    (cfg.batch_window = none → cfg.batch_size = some b → 10 < b →
      SqsEventSource.batch_window cfg = 1) ∧
    (cfg.batch_window = none → cfg.batch_size = some b → b ≤ 10 →
      SqsEventSource.batch_window cfg = 0) ∧
    SqsEventSource.batch_window { arn := cfg.arn, batch_size := some 15 } = 1 ∧
    SqsEventSource.batch_window { arn := cfg.arn, batch_size := some 5 } = 0 ∧
    SqsEventSource.batch_window { cfg with batch_window := some 3 } = 3 := by
  refine ⟨?_, ?_, ?_, ?_, ?_, ?_⟩ <;>
    intros <;>
    simp_all [SqsEventSource.batch_window, SqsEventSource.batch_size]

/-- Witness for C5 at concrete configs: explicit window 7 wins, batch size
15 defaults the window to 1, batch size 5 defaults it to 0. -/
theorem c5_sqs_batch_window_witness :
    SqsEventSource.batch_window { arn := "arn:aws:sqs:q", batch_window := some 7 } = 7 ∧
    SqsEventSource.batch_window { arn := "arn:aws:sqs:q", batch_size := some 15 } = 1 ∧
    SqsEventSource.batch_window { arn := "arn:aws:sqs:q", batch_size := some 5 } = 0 :=
  ⟨(c5_sqs_batch_window { arn := "arn:aws:sqs:q", batch_window := some 7 } 7 0).1 rfl,
   (c5_sqs_batch_window { arn := "arn:aws:sqs:q", batch_size := some 15 } 0 15).2.1
     rfl rfl (by decide),
   (c5_sqs_batch_window { arn := "arn:aws:sqs:q", batch_size := some 5 } 0 5).2.2.1
     rfl rfl (by decide)⟩

/-- Claim C7: adapter resolution fails with the tuple-unpacking error
exactly when `arn.split(":", 3)` does not yield exactly 4 segments, and
that limited split yields exactly 4 segments exactly when the ARN contains
at least 3 colons. -/
theorem c7_arn_unpacks_into_four_segments (es : EventSourceConfig)
    (la tf : String) (d : Bool) :
    (get_event_source es la tf d = .error .unpackError ↔
      (splitLimit ':' 3 es.arn.toList).length ≠ 4) ∧
    ((splitLimit ':' 3 es.arn.toList).length = 4 ↔ 3 ≤ es.arn.toList.count ':') := by
  constructor
  · rw [← parseService_unpack_iff]
    unfold get_event_source
    rcases h : parseService es.arn with e | svc
    · simp
    · simp only []
      rcases hm : event_source_map svc with _ | kind
      · simp
      · by_cases hs : svc = "s3" <;> simp [hs]
  · rw [splitLimit_length]
    omega

/-- Witness for C7: "arn:aws" (one colon) fails resolution with the
unpacking error, while "arn:aws:sqs:q" (three colons) does not. -/
theorem c7_arn_unpacks_into_four_segments_witness :
    get_event_source { arn := "arn:aws" } "la" "tf" false = .error .unpackError ∧
    ¬ get_event_source { arn := "arn:aws:sqs:q" } "la" "tf" false = .error .unpackError :=
  ⟨(c7_arn_unpacks_into_four_segments { arn := "arn:aws" } "la" "tf" false).1.mpr
      (by decide),
   fun h => absurd
      ((c7_arn_unpacks_into_four_segments { arn := "arn:aws:sqs:q" } "la" "tf" false).1.mp h)
      (by decide)⟩

/-- Claim C6: for a descriptor whose service identifier (third
colon-delimited segment of the ARN) is none of the six registered ones,
`get_event_source` raises the "unknown event source" error naming the
offending ARN, and every public entry point propagates it to its caller
unswallowed. -/
theorem c6_unknown_service_is_fatal (fault : ProviderCall → Bool)
    (other : ServiceKind → EventSourceConfig → AdapterOps)
    (es : EventSourceConfig) (la tf : String) (s : ProviderState) (d : Bool)
    (svc : String) (hsvc : parseService es.arn = .ok svc)
    (hmem : svc ∉ (["dynamodb", "kinesis", "s3", "sns", "sqs", "events"] : List String)) :
    get_event_source es la tf d = .error (.unknownEventSource es.arn) ∧
    add_event_source fault other es la tf s d =
      .error (.resolve (.unknownEventSource es.arn)) ∧
    remove_event_source fault other es la tf s d =
      .error (.resolve (.unknownEventSource es.arn)) ∧
    get_event_source_status fault other es la tf s d =
      .error (.resolve (.unknownEventSource es.arn)) := by
  have hmap : event_source_map svc = none := by
    simp only [List.mem_cons, List.not_mem_nil, or_false] at hmem
    push_neg at hmem
    obtain ⟨h1, h2, h3, h4, h5, h6⟩ := hmem
    simp [event_source_map, h1, h2, h3, h4, h5, h6]
  have hg : ∀ b : Bool, get_event_source es la tf b = .error (.unknownEventSource es.arn) := by
    intro b
    unfold get_event_source
    rw [hsvc]
    simp [hmap]
  refine ⟨hg d, ?_, ?_, ?_⟩
  · unfold add_event_source
    rw [hg false]
  · unfold remove_event_source
    rw [hg false]
  · unfold get_event_source_status
    rw [hg false]

/-- Witness for C6: the service identifier "nats" has no adapter, and the
error carries the full ARN through resolution and all entry points. -/
theorem c6_unknown_service_is_fatal_witness :
    get_event_source { arn := "arn:aws:nats:stream" } "arn:aws:lambda:f" "f" false =
      .error (.unknownEventSource "arn:aws:nats:stream") ∧
    add_event_source noFault kappaStub { arn := "arn:aws:nats:stream" }
        "arn:aws:lambda:f" "f" ⟨[], 0⟩ false =
      .error (.resolve (.unknownEventSource "arn:aws:nats:stream")) ∧
    remove_event_source noFault kappaStub { arn := "arn:aws:nats:stream" }
        "arn:aws:lambda:f" "f" ⟨[], 0⟩ false =
      .error (.resolve (.unknownEventSource "arn:aws:nats:stream")) ∧
    get_event_source_status noFault kappaStub { arn := "arn:aws:nats:stream" }
        "arn:aws:lambda:f" "f" ⟨[], 0⟩ false =
      .error (.resolve (.unknownEventSource "arn:aws:nats:stream")) :=
  c6_unknown_service_is_fatal noFault kappaStub { arn := "arn:aws:nats:stream" }
    "arn:aws:lambda:f" "f" ⟨[], 0⟩ false "nats" (by decide) (by decide)

/-- Claim C8: for an s3 descriptor the resolved target's `arn` is
all-but-the-last colon-segment of the supplied function reference rejoined
and its `name` is the last segment colon-joined with the original target
function name (checked at the spec's concrete example); every other
registered service uses the function reference unmodified as both `arn`
and `name`. -/
theorem c8_s3_target_normalization (es : EventSourceConfig)
    (la tf : String) (d : Bool) :
    (parseService es.arn = .ok "s3" →
      get_event_source es la tf d = .ok (.s3,
        { environment := some (String.mk ((splitAll ':' la.toList).getLastD [])) },
        { name := joinColon [(splitAll ':' la.toList).getLastD [], tf.toList],
          arn := joinColon (splitAll ':' la.toList).dropLast })) ∧
    (∀ (svc : String) (kind : ServiceKind),
      parseService es.arn = .ok svc → svc ≠ "s3" → event_source_map svc = some kind →
      get_event_source es la tf d =
        .ok (kind, { environment := none }, { name := la, arn := la })) ∧
    get_event_source { arn := "arn:aws:s3:::my-bucket" }
        "arn:aws:lambda:us-east-1:123:function:my-func:env" "my-func" d =
      .ok (.s3, { environment := some "env" },
        { name := "env:my-func",
          arn := "arn:aws:lambda:us-east-1:123:function:my-func" }) := by
  refine ⟨?_, ?_, ?_⟩
  · intro h
    unfold get_event_source
    rw [h]
    simp [event_source_map]
  · intro svc kind h hne hmap
    unfold get_event_source
    rw [h]
    simp [hmap, hne]
  · rfl

/-- Witness for C8: the spec's S3 example, and an SQS descriptor whose
target keeps the function reference unumodified. -/
theorem c8_s3_target_normalization_witness :
    get_event_source { arn := "arn:aws:s3:::my-bucket" }
        "arn:aws:lambda:us-east-1:123:function:my-func:env" "my-func" false =
      .ok (.s3, { environment := some "env" },
        { name := "env:my-func",
          arn := "arn:aws:lambda:us-east-1:123:function:my-func" }) ∧
    get_event_source { arn := "arn:aws:sqs:myqueue" } "arn:aws:lambda:f" "f" false =
      .ok (.sqs, { environment := none },
        { name := "arn:aws:lambda:f", arn := "arn:aws:lambda:f" }) :=
  ⟨(c8_s3_target_normalization { arn := "arn:aws:s3:::my-bucket" }
      "arn:aws:lambda:us-east-1:123:function:my-func:env" "my-func" false).2.2,
   (c8_s3_target_normalization { arn := "arn:aws:sqs:myqueue" }
      "arn:aws:lambda:f" "f" false).2.1 "sqs" .sqs (by decide) (by decide) (by decide)⟩

/-- Claim C10: `get_event_source` ignores its `dry` parameter (a two-run
equality: the adapter variant, context and target are identical for any
two values of `dry`), and each public entry point resolves by calling
`get_event_source` with `dry` fixed to false, so a resolution error
surfaces identically for every value of the entry point's own `dry` flag;
the dry run of `remove_event_source` returns the adapter object obtained
from that `dry=false` resolution. -/
theorem c10_dry_never_affects_resolution :
    (∀ (es : EventSourceConfig) (la tf : String) (d d' : Bool),
      get_event_source es la tf d = get_event_source es la tf d') ∧
    (∀ (fault : ProviderCall → Bool)
      (other : ServiceKind → EventSourceConfig → AdapterOps)
      (es : EventSourceConfig) (la tf : String) (s : ProviderState) (d : Bool)
      (e : ResolveError),
      get_event_source es la tf false = .error e →
      add_event_source fault other es la tf s d = .error (.resolve e) ∧
      remove_event_source fault other es la tf s d = .error (.resolve e) ∧
      get_event_source_status fault other es la tf s d = .error (.resolve e)) ∧
    (∀ (fault : ProviderCall → Bool)
      (other : ServiceKind → EventSourceConfig → AdapterOps)
      (es : EventSourceConfig) (la tf : String) (s : ProviderState)
      (k : ServiceKind) (c : PseudoContext) (f : SqsEventSource.FunctionRef),
      get_event_source es la tf false = .ok (k, c, f) →
      remove_event_source fault other es la tf s true = .ok (.adapterObject k es)) := by
  refine ⟨fun _ _ _ _ _ => rfl, ?_, ?_⟩
  · intro fault other es la tf s d e h
    refine ⟨?_, ?_, ?_⟩
    · unfold add_event_source
      rw [h]
    · unfold remove_event_source
      rw [h]
    · unfold get_event_source_status
      rw [h]
  · intro fault other es la tf s k c f h
    unfold remove_event_source
    rw [h]
    simp

/-- Witness for C10: a malformed ARN (no colons) raises the unpacking
error out of every entry point even under `dry=true`, and a resolvable
descriptor's dry removal returns the adapter object. -/
theorem c10_dry_never_affects_resolution_witness :
    (add_event_source noFault kappaStub { arn := "badarn" } "la" "tf" ⟨[], 0⟩ true =
      .error (.resolve .unpackError) ∧
    remove_event_source noFault kappaStub { arn := "badarn" } "la" "tf" ⟨[], 0⟩ true =
      .error (.resolve .unpackError) ∧
    get_event_source_status noFault kappaStub { arn := "badarn" } "la" "tf" ⟨[], 0⟩ true =
      .error (.resolve .unpackError)) ∧
    remove_event_source noFault kappaStub { arn := "arn:aws:sqs:q" } "la" "tf" ⟨[], 0⟩ true =
      .ok (.adapterObject .sqs { arn := "arn:aws:sqs:q" }) :=
  ⟨c10_dry_never_affects_resolution.2.1 noFault kappaStub { arn := "badarn" }
      "la" "tf" ⟨[], 0⟩ true .unpackError (by decide),
   c10_dry_never_affects_resolution.2.2 noFault kappaStub { arn := "arn:aws:sqs:q" }
      "la" "tf" ⟨[], 0⟩ .sqs { environment := none }
      { name := "la", arn := "la" } (by decide)⟩

/-- Claim C3: with the provider raising on every mutating call, the SQS
adapter's `add`, `enable` and `disable` return normally and leave the
provider state exactly as it was (the exception is swallowed; the local
config flag enable/disable set before calling the provider is still set,
as in the code), whereas `remove` propagates the error, and so does
`remove_event_source` around it. -/
theorem c3_sqs_swallows_mutation_errors_except_remove
    (other : ServiceKind → EventSourceConfig → AdapterOps)
    (cfg es : EventSourceConfig) (fn : SqsEventSource.FunctionRef)
    (la tf : String) (s : ProviderState)
    (hm : s.listFor fn.name cfg.arn ≠ [])
    (hsvc : parseService es.arn = .ok "sqs")
    (hm2 : s.listFor la es.arn ≠ []) :
    SqsEventSource.add faultMutations cfg fn s =
      (s, [SqsEventSource.createCall cfg fn]) ∧
    SqsEventSource.enable faultMutations cfg fn s =
      ({ cfg with enabled := some true }, s,
        [.listEventSourceMappings fn.name cfg.arn,
         .updateByUuid ((s.listFor fn.name cfg.arn).head?.map Mapping.uuid) true]) ∧
    SqsEventSource.disable faultMutations cfg fn s =
      ({ cfg with enabled := some false }, s,
        [.updateByFunctionName fn.name none none false]) ∧
    SqsEventSource.remove faultMutations cfg fn s = .error .generic ∧
    remove_event_source faultMutations other es la tf s false =
      .error (.provider .generic) := by
  have hremove : ∀ (cfg' : EventSourceConfig) (fn' : SqsEventSource.FunctionRef),
      s.listFor fn'.name cfg'.arn ≠ [] →
      SqsEventSource.remove faultMutations cfg' fn' s = .error .generic := by
    intro cfg' fn' hne
    obtain ⟨m, rest, hcons⟩ := List.exists_cons_of_ne_nil hne
    simp [SqsEventSource.remove, callProv, faultMutations, ProviderCall.isMutating,
      SqsEventSource.listCall, hcons]
  refine ⟨?_, ?_, ?_, hremove cfg fn hm, ?_⟩
  · exact add_faulted faultMutations cfg fn s rfl
  · simp [SqsEventSource.enable, callProv, faultMutations, ProviderCall.isMutating,
      SqsEventSource.listCall]
  · simp [SqsEventSource.disable, callProv, faultMutations, ProviderCall.isMutating]
  · unfold remove_event_source
    rw [resolve_sqs es la tf false hsvc]
    simp only [adapterFor, sqsOps, Bool.not_false, if_pos]
    rw [hremove es { name := la, arn := la } hm2]

/-- Witness for C3 at a provider holding one live mapping (uuid 3). -/
theorem c3_sqs_swallows_mutation_errors_except_remove_witness :
    SqsEventSource.add faultMutations { arn := "arn:aws:sqs:q" } ⟨"fn", "fn"⟩
        ⟨[⟨3, "fn", "arn:aws:sqs:q", 10, 0, true⟩], 4⟩ =
      (⟨[⟨3, "fn", "arn:aws:sqs:q", 10, 0, true⟩], 4⟩,
        [.createEventSourceMapping "fn" "arn:aws:sqs:q" 100 1 false]) ∧
    SqsEventSource.enable faultMutations { arn := "arn:aws:sqs:q" } ⟨"fn", "fn"⟩
        ⟨[⟨3, "fn", "arn:aws:sqs:q", 10, 0, true⟩], 4⟩ =
      ({ arn := "arn:aws:sqs:q", enabled := some true },
        ⟨[⟨3, "fn", "arn:aws:sqs:q", 10, 0, true⟩], 4⟩,
        [.listEventSourceMappings "fn" "arn:aws:sqs:q", .updateByUuid (some 3) true]) ∧
    SqsEventSource.disable faultMutations { arn := "arn:aws:sqs:q" } ⟨"fn", "fn"⟩
        ⟨[⟨3, "fn", "arn:aws:sqs:q", 10, 0, true⟩], 4⟩ =
      ({ arn := "arn:aws:sqs:q", enabled := some false },
        ⟨[⟨3, "fn", "arn:aws:sqs:q", 10, 0, true⟩], 4⟩,
        [.updateByFunctionName "fn" none none false]) ∧
    SqsEventSource.remove faultMutations { arn := "arn:aws:sqs:q" } ⟨"fn", "fn"⟩
        ⟨[⟨3, "fn", "arn:aws:sqs:q", 10, 0, true⟩], 4⟩ = .error .generic ∧
    remove_event_source faultMutations kappaStub { arn := "arn:aws:sqs:q" } "fn" "tf"
        ⟨[⟨3, "fn", "arn:aws:sqs:q", 10, 0, true⟩], 4⟩ false =
      .error (.provider .generic) := by
  have hc3 : _ ∧ _ ∧ _ ∧ _ ∧ _ :=
    c3_sqs_swallows_mutation_errors_except_remove kappaStub { arn := "arn:aws:sqs:q" }
      { arn := "arn:aws:sqs:q" } ⟨"fn", "fn"⟩ "fn" "tf"
      ⟨[⟨3, "fn", "arn:aws:sqs:q", 10, 0, true⟩], 4⟩
      (by decide) (by decide) (by decide)
  exact hc3

/-- Claim C1: for an SQS descriptor against a fault-free provider,
`add_event_source` with `dry=false` first queries status: when a mapping
is present it answers "exists" leaving the state alone, with a trace
containing no create call; when absent it creates, re-queries, and (the
provider reflecting the create) answers "successful", after which a second
call answers "exists" - the two traces together containing exactly one
create call; and when absent but with the provider failing every mutating
call, the re-query still finds nothing and the answer is "failed" with
the state untouched. -/
theorem c1_add_event_source_idempotent
    (other : ServiceKind → EventSourceConfig → AdapterOps)
    (es : EventSourceConfig) (la tf : String) (s : ProviderState)
    (hsvc : parseService es.arn = .ok "sqs") :
    (∀ (m : Mapping) (rest : List Mapping), s.listFor la es.arn = m :: rest →
      add_event_source noFault other es la tf s false =
        .ok ("exists", s,
          [.listEventSourceMappings la es.arn, .listEventSourceMappings la es.arn,
           .getEventSourceMapping m.uuid]) ∧
      List.countP ProviderCall.isCreate
        [ProviderCall.listEventSourceMappings la es.arn,
         ProviderCall.listEventSourceMappings la es.arn,
         ProviderCall.getEventSourceMapping m.uuid] = 0) ∧
    (s.listFor la es.arn = [] → s.WF →
      add_event_source noFault other es la tf s false =
        .ok ("successful",
          s.create la es.arn (SqsEventSource.batch_size es)
            (SqsEventSource.batch_window es) (SqsEventSource.enabledProp es),
          [.listEventSourceMappings la es.arn,
           .createEventSourceMapping la es.arn (SqsEventSource.batch_size es)
             (SqsEventSource.batch_window es) (SqsEventSource.enabledProp es),
           .listEventSourceMappings la es.arn, .listEventSourceMappings la es.arn,
           .getEventSourceMapping s.nextUuid]) ∧
      add_event_source noFault other es la tf
          (s.create la es.arn (SqsEventSource.batch_size es)
            (SqsEventSource.batch_window es) (SqsEventSource.enabledProp es)) false =
        .ok ("exists",
          s.create la es.arn (SqsEventSource.batch_size es)
            (SqsEventSource.batch_window es) (SqsEventSource.enabledProp es),
          [.listEventSourceMappings la es.arn, .listEventSourceMappings la es.arn,
           .getEventSourceMapping s.nextUuid]) ∧
      List.countP ProviderCall.isCreate
        [ProviderCall.listEventSourceMappings la es.arn,
         ProviderCall.createEventSourceMapping la es.arn (SqsEventSource.batch_size es)
           (SqsEventSource.batch_window es) (SqsEventSource.enabledProp es),
         ProviderCall.listEventSourceMappings la es.arn,
         ProviderCall.listEventSourceMappings la es.arn,
         ProviderCall.getEventSourceMapping s.nextUuid,
         ProviderCall.listEventSourceMappings la es.arn,
         ProviderCall.listEventSourceMappings la es.arn,
         ProviderCall.getEventSourceMapping s.nextUuid] = 1) ∧
    (s.listFor la es.arn = [] →
      add_event_source faultMutations other es la tf s false =
        .ok ("failed", s,
          [.listEventSourceMappings la es.arn,
           .createEventSourceMapping la es.arn (SqsEventSource.batch_size es)
             (SqsEventSource.batch_window es) (SqsEventSource.enabledProp es),
           .listEventSourceMappings la es.arn])) := by
  refine ⟨?_, ?_, ?_⟩
  · intro m rest hm
    have hmem : m ∈ s.mappings := by
      have hx : m ∈ s.listFor la es.arn := by
        rw [hm]
        exact List.mem_cons_self m rest
      exact (List.mem_filter.mp hx).1
    obtain ⟨m', hm'⟩ : ∃ m', s.mappings.find? (fun x => x.uuid == m.uuid) = some m' := by
      have hsome : (s.mappings.find? (fun x => x.uuid == m.uuid)).isSome := by
        refine List.find?_isSome.mpr ⟨m, hmem, ?_⟩
        simp
      exact Option.isSome_iff_exists.mp hsome
    have hstat := status_present es ⟨la, la⟩ s m rest hm m' hm'
    constructor
    · unfold add_event_source
      rw [resolve_sqs es la tf false hsvc]
      simp [adapterFor, sqsOps, hstat, Except.map, SqsEventSource.listCall]
    · simp [List.countP_cons, ProviderCall.isCreate]
  · intro hab hwf
    have hstat1 := status_absent noFault es ⟨la, la⟩ s rfl hab
    have hstat2 := status_after_create es ⟨la, la⟩ s hab hwf.2
      (SqsEventSource.batch_size es) (SqsEventSource.batch_window es)
      (SqsEventSource.enabledProp es)
    have hl2 : (s.create la es.arn (SqsEventSource.batch_size es)
        (SqsEventSource.batch_window es) (SqsEventSource.enabledProp es)).listFor
          la es.arn =
        ⟨s.nextUuid, la, es.arn, SqsEventSource.batch_size es,
          SqsEventSource.batch_window es, SqsEventSource.enabledProp es⟩ :: [] := by
      rw [listFor_create, hab]
      rfl
    have hfind2 : (s.create la es.arn (SqsEventSource.batch_size es)
        (SqsEventSource.batch_window es) (SqsEventSource.enabledProp es)).mappings.find?
          (fun x => x.uuid == s.nextUuid) =
        some ⟨s.nextUuid, la, es.arn, SqsEventSource.batch_size es,
          SqsEventSource.batch_window es, SqsEventSource.enabledProp es⟩ := by
      show (s.mappings ++ [_]).find? _ = _
      rw [find?_uuid_append]
      · simp
      · intro x hx
        exact Nat.ne_of_lt (hwf.2 x hx)
    have hstat3 := status_present es ⟨la, la⟩
      (s.create la es.arn (SqsEventSource.batch_size es)
        (SqsEventSource.batch_window es) (SqsEventSource.enabledProp es))
      ⟨s.nextUuid, la, es.arn, SqsEventSource.batch_size es,
        SqsEventSource.batch_window es, SqsEventSource.enabledProp es⟩ [] hl2 _ hfind2
    refine ⟨?_, ?_, ?_⟩
    · unfold add_event_source
      rw [resolve_sqs es la tf false hsvc]
      simp [adapterFor, sqsOps, hstat1, hstat2, add_noFault, Except.map,
        SqsEventSource.listCall, SqsEventSource.createCall]
    · unfold add_event_source
      rw [resolve_sqs es la tf false hsvc]
      simp [adapterFor, sqsOps, hstat3, Except.map, SqsEventSource.listCall]
    · simp [List.countP_cons, ProviderCall.isCreate]
  · intro hab
    have hstat1 := status_absent faultMutations es ⟨la, la⟩ s rfl hab
    have haddf := add_faulted faultMutations es ⟨la, la⟩ s rfl
    unfold add_event_source
    rw [resolve_sqs es la tf false hsvc]
    simp [adapterFor, sqsOps, hstat1, haddf, Except.map,
      SqsEventSource.listCall, SqsEventSource.createCall]

/-- Witness for C1: on an empty provider, a first `add_event_source`
answers "successful" creating mapping uuid 0 (config defaults: batch size
100, window 1, disabled), a second answers "exists", and the two traces
together hold exactly one create call. -/
theorem c1_add_event_source_idempotent_witness :
    add_event_source noFault kappaStub { arn := "arn:aws:sqs:q" } "fn" "tf" ⟨[], 0⟩ false =
      .ok ("successful", ⟨[⟨0, "fn", "arn:aws:sqs:q", 100, 1, false⟩], 1⟩,
        [.listEventSourceMappings "fn" "arn:aws:sqs:q",
         .createEventSourceMapping "fn" "arn:aws:sqs:q" 100 1 false,
         .listEventSourceMappings "fn" "arn:aws:sqs:q",
         .listEventSourceMappings "fn" "arn:aws:sqs:q",
         .getEventSourceMapping 0]) ∧
    add_event_source noFault kappaStub { arn := "arn:aws:sqs:q" } "fn" "tf"
        ⟨[⟨0, "fn", "arn:aws:sqs:q", 100, 1, false⟩], 1⟩ false =
      .ok ("exists", ⟨[⟨0, "fn", "arn:aws:sqs:q", 100, 1, false⟩], 1⟩,
        [.listEventSourceMappings "fn" "arn:aws:sqs:q",
         .listEventSourceMappings "fn" "arn:aws:sqs:q", .getEventSourceMapping 0]) ∧
    List.countP ProviderCall.isCreate
      [ProviderCall.listEventSourceMappings "fn" "arn:aws:sqs:q",
       ProviderCall.createEventSourceMapping "fn" "arn:aws:sqs:q" 100 1 false,
       ProviderCall.listEventSourceMappings "fn" "arn:aws:sqs:q",
       ProviderCall.listEventSourceMappings "fn" "arn:aws:sqs:q",
       ProviderCall.getEventSourceMapping 0,
       ProviderCall.listEventSourceMappings "fn" "arn:aws:sqs:q",
       ProviderCall.listEventSourceMappings "fn" "arn:aws:sqs:q",
       ProviderCall.getEventSourceMapping 0] = 1 := by
  exact (c1_add_event_source_idempotent kappaStub { arn := "arn:aws:sqs:q" } "fn" "tf"
    ⟨[], 0⟩ (by decide)).2.1 (by decide) (by decide)

/-- Claim C9: for an SQS descriptor, `remove_event_source` with `dry=false`
returns none and issues no delete call when no provider mapping exists
(the trace is a single list call), and when a mapping exists it deletes it
(one list call, one delete keyed by the resolved UUID) and returns the
provider's raw deletion response. -/
theorem c9_remove_event_source_absent_vs_present
    (other : ServiceKind → EventSourceConfig → AdapterOps)
    (es : EventSourceConfig) (la tf : String) (s : ProviderState)
    (hsvc : parseService es.arn = .ok "sqs") :
    (s.listFor la es.arn = [] →
      remove_event_source noFault other es la tf s false =
        .ok (.response none s [.listEventSourceMappings la es.arn]) ∧
      List.countP ProviderCall.isDelete
        [ProviderCall.listEventSourceMappings la es.arn] = 0) ∧
    (∀ (m : Mapping) (rest : List Mapping),
      s.WF → s.listFor la es.arn = m :: rest →
      remove_event_source noFault other es la tf s false =
        .ok (.response (some m)
          { s with mappings := s.mappings.filter fun m' => !(m'.uuid == m.uuid) }
          [.listEventSourceMappings la es.arn, .deleteEventSourceMapping m.uuid])) := by
  constructor
  · intro hab
    constructor
    · unfold remove_event_source
      rw [resolve_sqs es la tf false hsvc]
      simp only [adapterFor, sqsOps, Bool.not_false, if_pos]
      rw [remove_noFault_absent es { name := la, arn := la } s hab]
      rfl
    · simp [ProviderCall.isDelete]
  · intro m rest hwf hcons
    unfold remove_event_source
    rw [resolve_sqs es la tf false hsvc]
    simp only [adapterFor, sqsOps, Bool.not_false, if_pos]
    rw [remove_noFault_present es { name := la, arn := la } s m rest hwf.1 hcons]
    rfl

/-- Witness for C9: removal at an empty provider returns none with no
delete call; removal at a provider holding mapping uuid 3 deletes it and
returns its description. -/
theorem c9_remove_event_source_absent_vs_present_witness :
    (remove_event_source noFault kappaStub { arn := "arn:aws:sqs:q" } "fn" "tf" ⟨[], 0⟩ false =
      .ok (.response none ⟨[], 0⟩ [.listEventSourceMappings "fn" "arn:aws:sqs:q"]) ∧
    List.countP ProviderCall.isDelete
      [ProviderCall.listEventSourceMappings "fn" "arn:aws:sqs:q"] = 0) ∧
    remove_event_source noFault kappaStub { arn := "arn:aws:sqs:q" } "fn" "tf"
        ⟨[⟨3, "fn", "arn:aws:sqs:q", 10, 0, true⟩], 4⟩ false =
      .ok (.response (some ⟨3, "fn", "arn:aws:sqs:q", 10, 0, true⟩) ⟨[], 4⟩
        [.listEventSourceMappings "fn" "arn:aws:sqs:q", .deleteEventSourceMapping 3]) := by
  constructor
  · exact (c9_remove_event_source_absent_vs_present kappaStub { arn := "arn:aws:sqs:q" }
      "fn" "tf" ⟨[], 0⟩ (by decide)).1 (by decide)
  · exact (c9_remove_event_source_absent_vs_present kappaStub { arn := "arn:aws:sqs:q" }
      "fn" "tf" ⟨[⟨3, "fn", "arn:aws:sqs:q", 10, 0, true⟩], 4⟩ (by decide)).2
      ⟨3, "fn", "arn:aws:sqs:q", 10, 0, true⟩ [] (by decide) (by decide)

/-- Counterexample to claim C2 as stated: `add_event_source` resolves the
descriptor before consulting `dry`, so on a descriptor whose ARN carries
an unregistered service identifier the call with `dry=true` raises the
resolution error instead of returning "dryrun". -/
theorem c2_counterexample_dryrun_not_returned :
    add_event_source noFault kappaStub { arn := "arn:aws:nats:stream" } "la" "tf"
      ⟨[], 0⟩ true = .error (.resolve (.unknownEventSource "arn:aws:nats:stream")) ∧
    add_event_source noFault kappaStub { arn := "arn:aws:nats:stream" } "la" "tf"
      ⟨[], 0⟩ true ≠ .ok ("dryrun", ⟨[], 0⟩, []) := by
  constructor
  · decide
  · decide

/-- Claim C2 (amended): for every descriptor whose adapter resolves,
`add_event_source` with `dry=true` issues no provider call at all (empty
trace, hence in particular no mutating call), leaves the provider state
untouched and returns the literal "dryrun"; a descriptor that fails
resolution raises the resolution error instead, still without issuing any
provider call. -/
theorem c2_dryrun_issues_no_mutation (fault : ProviderCall → Bool)
    (other : ServiceKind → EventSourceConfig → AdapterOps)
    (es : EventSourceConfig) (la tf : String) (s : ProviderState) :
    (∀ (k : ServiceKind) (c : PseudoContext) (f : SqsEventSource.FunctionRef),
      get_event_source es la tf false = .ok (k, c, f) →
      add_event_source fault other es la tf s true = .ok ("dryrun", s, [])) ∧
    (∀ (e : ResolveError), get_event_source es la tf false = .error e →
      add_event_source fault other es la tf s true = .error (.resolve e)) := by
  constructor
  · intro k c f h
    unfold add_event_source
    rw [h]
    simp
  · intro e h
    unfold add_event_source
    rw [h]

/-- Witness for the amended C2: an SQS descriptor dry-run returns "dryrun"
with an empty trace even while every mutating provider call would fail. -/
theorem c2_dryrun_issues_no_mutation_witness :
    add_event_source faultMutations kappaStub { arn := "arn:aws:sqs:q" } "fn" "tf"
      ⟨[], 0⟩ true = .ok ("dryrun", ⟨[], 0⟩, []) :=
  (c2_dryrun_issues_no_mutation faultMutations kappaStub { arn := "arn:aws:sqs:q" }
    "fn" "tf" ⟨[], 0⟩).1 .sqs { environment := none } { name := "fn", arn := "fn" }
    (by decide)

/-- Claim C4 (code evidence): at a provider holding the live mapping uuid 7
for function "myfunc", `disable` issues its update keyed by the function
name with no UUID resolution at all (its trace is a single update call
carrying no UUID and no list call), and `update` resolves the UUID (the
list call) but then issues its update keyed by the function ARN instead of
that UUID; `enable` and `remove` do key their provider calls by the
resolved UUID, and `update` against an empty provider is a pure no-op
(one list call, no create, no update). -/
theorem c4_disable_update_not_keyed_by_uuid :
    SqsEventSource.disable noFault { arn := "arn:aws:sqs:q", batch_size := some 10 }
        ⟨"myfunc", "arn:aws:lambda:myfunc"⟩
        ⟨[⟨7, "myfunc", "arn:aws:sqs:q", 10, 0, true⟩], 8⟩ =
      ({ arn := "arn:aws:sqs:q", batch_size := some 10, enabled := some false },
        ⟨[⟨7, "myfunc", "arn:aws:sqs:q", 10, 0, true⟩], 8⟩,
        [.updateByFunctionName "myfunc" none none false]) ∧
    SqsEventSource.update noFault { arn := "arn:aws:sqs:q", batch_size := some 10 }
        ⟨"myfunc", "arn:aws:lambda:myfunc"⟩
        ⟨[⟨7, "myfunc", "arn:aws:sqs:q", 10, 0, true⟩], 8⟩ =
      .ok (⟨[⟨7, "myfunc", "arn:aws:sqs:q", 10, 0, true⟩], 8⟩,
        [.listEventSourceMappings "myfunc" "arn:aws:sqs:q",
         .updateByFunctionName "arn:aws:lambda:myfunc" (some 10) (some 0) false]) ∧
    SqsEventSource.enable noFault { arn := "arn:aws:sqs:q", batch_size := some 10 }
        ⟨"myfunc", "arn:aws:lambda:myfunc"⟩
        ⟨[⟨7, "myfunc", "arn:aws:sqs:q", 10, 0, true⟩], 8⟩ =
      ({ arn := "arn:aws:sqs:q", batch_size := some 10, enabled := some true },
        ⟨[⟨7, "myfunc", "arn:aws:sqs:q", 10, 0, true⟩], 8⟩,
        [.listEventSourceMappings "myfunc" "arn:aws:sqs:q", .updateByUuid (some 7) true]) ∧
    SqsEventSource.remove noFault { arn := "arn:aws:sqs:q", batch_size := some 10 }
        ⟨"myfunc", "arn:aws:lambda:myfunc"⟩
        ⟨[⟨7, "myfunc", "arn:aws:sqs:q", 10, 0, true⟩], 8⟩ =
      .ok (some ⟨7, "myfunc", "arn:aws:sqs:q", 10, 0, true⟩, ⟨[], 8⟩,
        [.listEventSourceMappings "myfunc" "arn:aws:sqs:q",
         .deleteEventSourceMapping 7]) ∧
    SqsEventSource.update noFault { arn := "arn:aws:sqs:q", batch_size := some 10 }
        ⟨"myfunc", "arn:aws:lambda:myfunc"⟩ ⟨[], 0⟩ =
      .ok (⟨[], 0⟩, [.listEventSourceMappings "myfunc" "arn:aws:sqs:q"]) := by
  refine ⟨?_, ?_, ?_, ?_, ?_⟩ <;> decide

end Zappa
